import Mathlib

/-!
Verification of the nebula runtime support layer (`src/codegen/ext/ext.c`,
`src/ir/codegen/ext/ext.c`, `src/codegen/lib/io.c`) against its
natural-language specification.

The C sources are shallowly embedded: the standard streams are byte lists
(`stdin` holds the bytes not yet consumed, `stdout` the bytes written so far,
`stderr` the diagnostic lines written so far); the two externally owned
`uint64_t` depth counters are naturals (the code only reads and compares
them, never does arithmetic on them, so no wraparound can occur); `exit(1)`
is modelled by an explicit `exited` outcome.
-/

/-- A byte, the unit of the modelled streams. -/
abbrev Byte := Fin 256

/-- `fgetc` on a readable stream: consume and return the next byte
(as a non-negative `int`), or return `EOF = -1` when the stream is
exhausted. -/
def fgetc : List Byte → Int × List Byte
  | [] => (-1, [])
  | b :: rest => ((b.val : Int), rest)

/-- `fputc(b, f)`: the `int` argument is converted to `unsigned char`
(reduction mod 256) and appended to the stream. -/
def fputc (b : Int) (out : List Byte) : List Byte :=
  out ++ [⟨(b % 256).toNat, by omega⟩]

/-- The C cast `(int) i` from `int64_t`: reduce mod 2^32 and reinterpret the
residue as a signed 32-bit value (the behaviour of every supported target). -/
def toInt32 (i : Int) : Int :=
  let m := i % 4294967296
  if m < 2147483648 then m else m - 4294967296

/-- Decimal digits (most significant first) of a positive natural, as ASCII
bytes; accumulator-passing form of the digit loop inside `printf`.  The loop
strips one digit per step, so any `fuel ≥ n` computes all of `n`. -/
def natDigitsAux : Nat → Nat → List Byte → List Byte
  | _, 0, acc => acc
  | 0, _ + 1, acc => acc
  | f + 1, m + 1, acc =>
      natDigitsAux f ((m + 1) / 10) (⟨(m + 1) % 10 + 48, by omega⟩ :: acc)

/-- Decimal digits of a natural, as ASCII bytes (`"0"` for zero). -/
def natDigits (n : Nat) : List Byte :=
  if n = 0 then [⟨48, by omega⟩] else natDigitsAux n n []

/-- The text produced by `printf("%d", i)` for an in-range `int` argument:
an optional `'-'` followed by the decimal digits of the magnitude. -/
def intDecimal (i : Int) : List Byte :=
  if i < 0 then ⟨45, by omega⟩ :: natDigits i.natAbs else natDigits i.toNat

/-- The string `small` occurs contiguously inside `big`: how the spec's
"diagnostic containing the location tag" is stated. -/
def containsStr (big small : String) : Prop :=
  ∃ pre suf : List Char, big.data = pre ++ small.data ++ suf

/-- The bytes of an ASCII string literal, for stating what a call printed. -/
def strBytes (s : String) : List Byte :=
  s.data.map (fun c => Fin.ofNat c.toNat)

/-- Is `b` one of the whitespace bytes skipped by `fscanf` conversions
(space, tab, newline, vertical tab, form feed, carriage return)? -/
def isSpaceByte (b : Byte) : Bool :=
  b.val = 32 || (9 ≤ b.val && b.val ≤ 13)

/-- Is `b` an ASCII decimal digit? -/
def isDigitByte (b : Byte) : Bool :=
  48 ≤ b.val && b.val ≤ 57

/-- The leading-whitespace skip performed by an `fscanf` `%d` directive. -/
def skipSpaces : List Byte → List Byte
  | [] => []
  | b :: rest => if isSpaceByte b then skipSpaces rest else b :: rest

/-- Consume a maximal run of decimal digits, folding them onto `acc`. -/
def takeDigits : List Byte → Nat → Nat × List Byte
  | [], acc => (acc, [])
  | b :: rest, acc =>
      if isDigitByte b then takeDigits rest (acc * 10 + (b.val - 48))
      else (acc, b :: rest)

/-- `fscanf(f, "%d", &i)`: skip whitespace, then match an optional sign and a
nonempty digit run; `some v` is the value stored into `i`, `none` means the
directive failed to match and `i` is left unspecified (the inherited gap the
spec flags).  Values outside the range of `int` are undefined behaviour in
the source; the model returns the mathematical value. -/
def fscanf_d (input : List Byte) : Option Int × List Byte :=
  match skipSpaces input with
  | [] => (none, [])
  | b :: rest =>
      if b.val = 45 then
        match rest with
        | [] => (none, [b])
        | c :: rest2 =>
            if isDigitByte c then
              let p := takeDigits (c :: rest2) 0
              (some (-(p.1 : Int)), p.2)
            else (none, b :: c :: rest2)
      else if b.val = 43 then
        match rest with
        | [] => (none, [b])
        | c :: rest2 =>
            if isDigitByte c then
              let p := takeDigits (c :: rest2) 0
              (some ((p.1 : Int)), p.2)
            else (none, b :: c :: rest2)
      else if isDigitByte b then
        let p := takeDigits (b :: rest) 0
        (some ((p.1 : Int)), p.2)
      else (none, b :: rest)

/-- The process state seen by the two stack checks: the two externally owned
depth counters (read-only here) and the output and error streams. -/
structure ExtState where
  stack_len : Nat
  call_stack_len : Nat
  stdout : List Byte
  stderr : List String
deriving DecidableEq, Repr

/-- Outcome of a check: return normally with the state, or `exit(code)`
after the state's final writes. -/
inductive CheckResult where
  | ok : ExtState → CheckResult
  | exited : Nat → ExtState → CheckResult
deriving DecidableEq, Repr

/-- The exit status a check terminated the process with, if it did. -/
def CheckResult.exitCode : CheckResult → Option Nat
  | .ok _ => none
  | .exited c _ => some c

/-- The state at the end of the check (final, whether or not it exited). -/
def CheckResult.state : CheckResult → ExtState
  | .ok s => s
  | .exited _ s => s

namespace CodegenExt
/-! Embedding of `src/codegen/ext/ext.c` (single location tag variant). -/

/-- `printc`: `fputc(c, stdout)`. -/
def printc (c : Int) (out : List Byte) : List Byte :=
  fputc c out

/-- `printi`: `printf("%d", (int) i)`. -/
def printi (i : Int) (out : List Byte) : List Byte :=
  out ++ intDecimal (toInt32 i)

/-- `readc`: `return fgetc(stdin);`. -/
def readc (stdin : List Byte) : Int × List Byte :=
  fgetc stdin

/-- `readi`: `fscanf(stdin, "%d", &i); return i;`. -/
def readi (stdin : List Byte) : Option Int × List Byte :=
  fscanf_d stdin

/-- `check_stack(n, location)`: if `stack_len < n`, print
`"stack underflow at %s\n"` to `stderr`, flush it and `exit(1)`;
otherwise fall through. -/
def check_stack (n : Nat) (location : String) (s : ExtState) : CheckResult :=
  if s.stack_len < n then
    .exited 1 { s with
      stderr := s.stderr ++ ["stack underflow at " ++ location ++ "\n"] }
  else
    .ok s

/-- `check_call_stack(location)`: if `call_stack_len < 1`, print
`"call stack underflow at %s\n"` to `stderr`, flush it and `exit(1)`;
otherwise fall through. -/
def check_call_stack (location : String) (s : ExtState) : CheckResult :=
  if s.call_stack_len < 1 then
    .exited 1 { s with
      stderr := s.stderr ++ ["call stack underflow at " ++ location ++ "\n"] }
  else
    .ok s

end CodegenExt

namespace IrExt
/-! Embedding of `src/ir/codegen/ext/ext.c` (block + position tag variant). -/

/-- `print_byte`: `fputc(b, stdout)`. -/
def print_byte (b : Int) (out : List Byte) : List Byte :=
  fputc b out

/-- `print_int`: `printf("%d", (int) i)`. -/
def print_int (i : Int) (out : List Byte) : List Byte :=
  out ++ intDecimal (toInt32 i)

/-- `read_byte`: `return fgetc(stdin);`. -/
def read_byte (stdin : List Byte) : Int × List Byte :=
  fgetc stdin

/-- `read_int`: `fscanf(stdin, "%d", &i); return i;`. -/
def read_int (stdin : List Byte) : Option Int × List Byte :=
  fscanf_d stdin

/-- `check_stack(n, block, pos)`: if `stack_len < n`, print
`"Data stack underflow in %s at %s\n"` to `stderr`, flush it and `exit(1)`;
otherwise fall through. -/
def check_stack (n : Nat) (block pos : String) (s : ExtState) : CheckResult :=
  if s.stack_len < n then
    .exited 1 { s with
      stderr := s.stderr ++
        ["Data stack underflow in " ++ block ++ " at " ++ pos ++ "\n"] }
  else
    .ok s

/-- `check_call_stack(block, pos)`: if `call_stack_len < 1`, print
`"Call stack underflow in %s at %s\n"` to `stderr`, flush it and `exit(1)`;
otherwise fall through. -/
def check_call_stack (block pos : String) (s : ExtState) : CheckResult :=
  if s.call_stack_len < 1 then
    .exited 1 { s with
      stderr := s.stderr ++
        ["Call stack underflow in " ++ block ++ " at " ++ pos ++ "\n"] }
  else
    .ok s

end IrExt

/-- The streams seen by `src/codegen/lib/io.c`: its `readc` names `stdout`,
so its state must carry both standard streams. -/
structure IOState where
  stdin : List Byte
  stdout : List Byte
deriving DecidableEq, Repr

/-- Which standard stream a call names. -/
inductive StreamId where
  | stdinId : StreamId
  | stdoutId : StreamId
deriving DecidableEq, Repr

/-- `fgetc` dispatched on the stream argument.  `stdin` is the readable
input stream; `stdout` is opened write-only, so a read on it fails and
yields `EOF = -1` without consuming anything. -/
def fgetcOn : StreamId → IOState → Int × IOState
  | .stdinId, s =>
      match s.stdin with
      | [] => (-1, s)
      | b :: rest => ((b.val : Int), { s with stdin := rest })
  | .stdoutId, s => (-1, s)

namespace CodegenIO
/-! Embedding of `src/codegen/lib/io.c`. -/

/-- `printc`: `fputc(c, stdout)`. -/
def printc (c : Int) (s : IOState) : IOState :=
  { s with stdout := fputc c s.stdout }

/-- `printi`: `printf("%d", (int) i)`. -/
def printi (i : Int) (s : IOState) : IOState :=
  { s with stdout := s.stdout ++ intDecimal (toInt32 i) }

/-- `readc`: `return fgetc(stdout);` — note the source reads the *output*
stream here, not `stdin`. -/
def readc (s : IOState) : Int × IOState :=
  fgetcOn .stdoutId s

/-- `readi`: `scanf("%d", &i); return i;` (`scanf` reads `stdin`). -/
def readi (s : IOState) : Option Int × IOState :=
  let p := fscanf_d s.stdin
  (p.1, { s with stdin := p.2 })

end CodegenIO

/-! ## Theorems -/

/-- The char list of the one-character newline string. -/
theorem newline_data : "\n".data = ['\n'] := rfl

/-- C1: with data-stack depth `d` strictly below the required depth
`d + k + 1`, both variants of the data-stack check exit with status 1,
append exactly one diagnostic line — containing every part of the location
tag — to the error stream, and leave standard output untouched. -/
theorem check_stack_underflow_exits
    (d k co : Nat) (loc block pos : String)
    (out : List Byte) (err : List String) :
    CodegenExt.check_stack (d + k + 1) loc ⟨d, co, out, err⟩ =
      .exited 1 ⟨d, co, out, err ++ ["stack underflow at " ++ loc ++ "\n"]⟩ ∧
    containsStr ("stack underflow at " ++ loc ++ "\n") loc ∧
    IrExt.check_stack (d + k + 1) block pos ⟨d, co, out, err⟩ =
      .exited 1 ⟨d, co, out,
        err ++ ["Data stack underflow in " ++ block ++ " at " ++ pos ++ "\n"]⟩ ∧
    containsStr
      ("Data stack underflow in " ++ block ++ " at " ++ pos ++ "\n") block ∧
    containsStr
      ("Data stack underflow in " ++ block ++ " at " ++ pos ++ "\n") pos := by
  refine ⟨?_, ?_, ?_, ?_, ?_⟩
  · simp [CodegenExt.check_stack, show d < d + k + 1 by omega]
  · exact ⟨"stack underflow at ".data, ['\n'],
      by simp [String.data_append, newline_data]⟩
  · simp [IrExt.check_stack, show d < d + k + 1 by omega]
  · exact ⟨"Data stack underflow in ".data, (" at " ++ pos ++ "\n").data,
      by simp [String.data_append]⟩
  · exact ⟨("Data stack underflow in " ++ block ++ " at ").data, ['\n'],
      by simp [String.data_append, newline_data]⟩

/-- C2: with an empty call stack, both variants of the call-stack check exit
with status 1 and append one diagnostic line containing the location tag to
the error stream; with any depth `c + 1 ≥ 1` they return normally with the
state unchanged. -/
theorem check_call_stack_spec
    (sl c : Nat) (loc block pos : String)
    (out : List Byte) (err : List String) :
    CodegenExt.check_call_stack loc ⟨sl, 0, out, err⟩ =
      .exited 1 ⟨sl, 0, out,
        err ++ ["call stack underflow at " ++ loc ++ "\n"]⟩ ∧
    containsStr ("call stack underflow at " ++ loc ++ "\n") loc ∧
    CodegenExt.check_call_stack loc ⟨sl, c + 1, out, err⟩ =
      .ok ⟨sl, c + 1, out, err⟩ ∧
    IrExt.check_call_stack block pos ⟨sl, 0, out, err⟩ =
      .exited 1 ⟨sl, 0, out,
        err ++ ["Call stack underflow in " ++ block ++ " at " ++ pos ++ "\n"]⟩ ∧
    containsStr
      ("Call stack underflow in " ++ block ++ " at " ++ pos ++ "\n") block ∧
    containsStr
      ("Call stack underflow in " ++ block ++ " at " ++ pos ++ "\n") pos ∧
    IrExt.check_call_stack block pos ⟨sl, c + 1, out, err⟩ =
      .ok ⟨sl, c + 1, out, err⟩ := by
  refine ⟨?_, ?_, ?_, ?_, ?_, ?_, ?_⟩
  · simp [CodegenExt.check_call_stack]
  · exact ⟨"call stack underflow at ".data, ['\n'],
      by simp [String.data_append, newline_data]⟩
  · simp [CodegenExt.check_call_stack]
  · simp [IrExt.check_call_stack]
  · exact ⟨"Call stack underflow in ".data, (" at " ++ pos ++ "\n").data,
      by simp [String.data_append]⟩
  · exact ⟨("Call stack underflow in " ++ block ++ " at ").data, ['\n'],
      by simp [String.data_append, newline_data]⟩
  · simp [IrExt.check_call_stack]

/-- C3: with data-stack depth `n + k ≥ n`, both variants of the data-stack
check return normally with the state — both counters and both streams —
unchanged: a pure gate. -/
theorem check_stack_sufficient_pure
    (n k co : Nat) (loc block pos : String)
    (out : List Byte) (err : List String) :
    CodegenExt.check_stack n loc ⟨n + k, co, out, err⟩ =
      .ok ⟨n + k, co, out, err⟩ ∧
    IrExt.check_stack n block pos ⟨n + k, co, out, err⟩ =
      .ok ⟨n + k, co, out, err⟩ := by
  constructor
  · simp [CodegenExt.check_stack, show ¬(n + k < n) by omega]
  · simp [IrExt.check_stack, show ¬(n + k < n) by omega]

/-- C8: with required depth 0 the data-stack check always returns normally,
whatever the state: the depth counter is unsigned, so `stack_len < 0` is
unsatisfiable and the failure branch is unreachable. -/
theorem check_stack_zero_always_ok
    (loc block pos : String) (s : ExtState) :
    CodegenExt.check_stack 0 loc s = .ok s ∧
    IrExt.check_stack 0 block pos s = .ok s := by
  constructor
  · simp [CodegenExt.check_stack]
  · simp [IrExt.check_stack]

/-- C5: `print_int`/`printi` write the decimal signed representation of the
argument truncated to the signed 32-bit range: `-42` prints `-42`, `0`
prints `0`; the printed value `toInt32 i` is congruent to `i` mod `2^32`
and lies in `[-2^31, 2^31)`; and both variants print identically. -/
theorem print_int_decimal_int32 :
    (∀ out, IrExt.print_int (-42) out = out ++ strBytes "-42") ∧
    (∀ out, CodegenExt.printi (-42) out = out ++ strBytes "-42") ∧
    (∀ out, IrExt.print_int 0 out = out ++ strBytes "0") ∧
    (∀ out, CodegenExt.printi 0 out = out ++ strBytes "0") ∧
    (∀ i : Int, toInt32 i % 4294967296 = i % 4294967296 ∧
      -2147483648 ≤ toInt32 i ∧ toInt32 i < 2147483648) ∧
    (∀ i out, IrExt.print_int i out = CodegenExt.printi i out) := by
  refine ⟨?_, ?_, ?_, ?_, ?_, ?_⟩
  · exact fun out => congrArg (fun l => out ++ l) (by decide)
  · exact fun out => congrArg (fun l => out ++ l) (by decide)
  · exact fun out => congrArg (fun l => out ++ l) (by decide)
  · exact fun out => congrArg (fun l => out ++ l) (by decide)
  · intro i
    refine ⟨?_, ?_, ?_⟩ <;> (unfold toInt32; dsimp only; split <;> omega)
  · intro i out
    rfl

/-- C6: writing any byte value `c` in `[0, 255]` with `print_byte`/`printc`
and reading the produced output back with `read_byte`/`readc` yields `c`
unchanged. -/
theorem print_byte_read_byte_roundtrip (c : Byte) :
    IrExt.read_byte (IrExt.print_byte (c.val : Int) []) = ((c.val : Int), []) ∧
    CodegenExt.readc (CodegenExt.printc (c.val : Int) []) =
      ((c.val : Int), []) := by
  have hc := c.isLt
  constructor <;>
    · simp [IrExt.read_byte, IrExt.print_byte, CodegenExt.readc,
        CodegenExt.printc, fgetc, fputc, Prod.ext_iff]
      omega

/-- C7: on the input bytes `"123\n"` (49, 50, 51, 10), all three
implementations of the integer read return 123, leaving the newline
unconsumed. -/
theorem read_int_parses_123 :
    IrExt.read_int [49, 50, 51, 10] = (some 123, [10]) ∧
    CodegenExt.readi [49, 50, 51, 10] = (some 123, [10]) ∧
    CodegenIO.readi ⟨[49, 50, 51, 10], []⟩ = (some 123, ⟨[10], []⟩) := by
  decide

/-- C9: `read_byte`/`readc` (the `ext.c` variants) return either the
sentinel `-1` or a value in `[0, 255]`; a byte actually present on the
input is returned as its own non-negative value, never as `-1`, and an
exhausted input returns `-1`. -/
theorem read_byte_sentinel_range :
    (∀ input : List Byte, (IrExt.read_byte input).1 = -1 ∨
      (0 ≤ (IrExt.read_byte input).1 ∧ (IrExt.read_byte input).1 ≤ 255)) ∧
    (∀ (b : Byte) (rest : List Byte),
      (IrExt.read_byte (b :: rest)).1 = (b.val : Int) ∧
      (IrExt.read_byte (b :: rest)).1 ≠ -1) ∧
    IrExt.read_byte [] = (-1, []) ∧
    (∀ input : List Byte, (CodegenExt.readc input).1 = -1 ∨
      (0 ≤ (CodegenExt.readc input).1 ∧ (CodegenExt.readc input).1 ≤ 255)) ∧
    (∀ (b : Byte) (rest : List Byte),
      (CodegenExt.readc (b :: rest)).1 = (b.val : Int) ∧
      (CodegenExt.readc (b :: rest)).1 ≠ -1) ∧
    CodegenExt.readc [] = (-1, []) := by
  refine ⟨?_, ?_, rfl, ?_, ?_, rfl⟩
  · rintro (_ | ⟨b, rest⟩)
    · left; rfl
    · right
      have := b.isLt
      constructor <;> (simp [IrExt.read_byte, fgetc]; try omega)
  · intro b rest
    constructor
    · rfl
    · simp [IrExt.read_byte, fgetc]
  · rintro (_ | ⟨b, rest⟩)
    · left; rfl
    · right
      have := b.isLt
      constructor <;> (simp [CodegenExt.readc, fgetc]; try omega)
  · intro b rest
    constructor
    · rfl
    · simp [CodegenExt.readc, fgetc]

/-- C4 counter-evidence: `readc` in `src/codegen/lib/io.c` calls
`fgetc(stdout)`, so with the byte 65 waiting on standard input it returns
`-1` and consumes nothing, while its siblings in the two `ext.c` files,
which call `fgetc(stdin)`, return 65 on the same input. -/
theorem readc_io_reads_wrong_stream :
    CodegenIO.readc ⟨[65], []⟩ = (-1, ⟨[65], []⟩) ∧
    (IrExt.read_byte [65]).1 = 65 ∧
    (CodegenExt.readc [65]).1 = 65 := by
  decide

/-- C10: noninterference of the two checks.  Two runs of the data-stack
check that agree on the arguments, the data-stack depth and the streams
produce the same outcome (exit status) and the same error and output
streams, whatever their call-stack depths; symmetrically, the call-stack
check is insensitive to the data-stack depth.  Both variants. -/
theorem checks_noninterference
    (n sl c sl1 sl2 c1 c2 : Nat) (loc block pos : String)
    (out : List Byte) (err : List String) :
    ((CodegenExt.check_stack n loc ⟨sl, c1, out, err⟩).exitCode =
       (CodegenExt.check_stack n loc ⟨sl, c2, out, err⟩).exitCode ∧
     (CodegenExt.check_stack n loc ⟨sl, c1, out, err⟩).state.stderr =
       (CodegenExt.check_stack n loc ⟨sl, c2, out, err⟩).state.stderr ∧
     (CodegenExt.check_stack n loc ⟨sl, c1, out, err⟩).state.stdout =
       (CodegenExt.check_stack n loc ⟨sl, c2, out, err⟩).state.stdout) ∧
    ((IrExt.check_stack n block pos ⟨sl, c1, out, err⟩).exitCode =
       (IrExt.check_stack n block pos ⟨sl, c2, out, err⟩).exitCode ∧
     (IrExt.check_stack n block pos ⟨sl, c1, out, err⟩).state.stderr =
       (IrExt.check_stack n block pos ⟨sl, c2, out, err⟩).state.stderr ∧
     (IrExt.check_stack n block pos ⟨sl, c1, out, err⟩).state.stdout =
       (IrExt.check_stack n block pos ⟨sl, c2, out, err⟩).state.stdout) ∧
    ((CodegenExt.check_call_stack loc ⟨sl1, c, out, err⟩).exitCode =
       (CodegenExt.check_call_stack loc ⟨sl2, c, out, err⟩).exitCode ∧
     (CodegenExt.check_call_stack loc ⟨sl1, c, out, err⟩).state.stderr =
       (CodegenExt.check_call_stack loc ⟨sl2, c, out, err⟩).state.stderr ∧
     (CodegenExt.check_call_stack loc ⟨sl1, c, out, err⟩).state.stdout =
       (CodegenExt.check_call_stack loc ⟨sl2, c, out, err⟩).state.stdout) ∧
    ((IrExt.check_call_stack block pos ⟨sl1, c, out, err⟩).exitCode =
       (IrExt.check_call_stack block pos ⟨sl2, c, out, err⟩).exitCode ∧
     (IrExt.check_call_stack block pos ⟨sl1, c, out, err⟩).state.stderr =
       (IrExt.check_call_stack block pos ⟨sl2, c, out, err⟩).state.stderr ∧
     (IrExt.check_call_stack block pos ⟨sl1, c, out, err⟩).state.stdout =
       (IrExt.check_call_stack block pos ⟨sl2, c, out, err⟩).state.stdout) := by
  refine ⟨⟨?_, ?_, ?_⟩, ⟨?_, ?_, ?_⟩, ⟨?_, ?_, ?_⟩, ⟨?_, ?_, ?_⟩⟩ <;>
    · simp only [CodegenExt.check_stack, IrExt.check_stack,
        CodegenExt.check_call_stack, IrExt.check_call_stack]
      split <;> rfl
